import Mathlib

/-!
Verification of the business-analysis pipeline in `src/agent/graph.py`.

The pipeline has three stages, embedded here as pure functions:
  - `input_node`      : validates that the raw input has `data`, `data.today`,
                        `data.yesterday` present (source lines 44-58);
  - `processing_node` : computes profits, CAC, and percentage changes
                        (source lines 60-92);
  - `recommendation_node` : derives the status string, alerts and
                        recommendations (source lines 94-135).

Python floats are modelled as rationals (`ℚ`); Python exceptions are modelled
with `Except PyError`: `ValueError` (the validation failure) and
`ZeroDivisionError` (what `/` would raise on a zero divisor) are distinct,
catchable constructors.  Division is embedded as `pydiv`, which fails exactly
when the divisor is zero, so totality theorems really say that no division in
the code can be reached with a zero denominator.
-/

/-- Errors the Python code can raise: `ValueError msg` from the validator and
`ZeroDivisionError` from the `/` operator. -/
inductive PyError where
  | valueError : String → PyError
  | zeroDivisionError : PyError
deriving DecidableEq, Repr

/-- One day of raw business figures; mirrors the `BusinessData` TypedDict
(`sales: float`, `costs: float`, `customers: int`). -/
structure BusinessData where
  sales : ℚ
  costs : ℚ
  customers : ℤ
deriving DecidableEq, Repr

/-- The validated snapshot: mirrors the `DailyData` TypedDict with both days
present. -/
structure DailyData where
  today : BusinessData
  yesterday : BusinessData
deriving DecidableEq, Repr

/-- Mirrors the `Metrics` TypedDict produced by `processing_node`. -/
structure Metrics where
  profit_today : ℚ
  profit_yesterday : ℚ
  cac_today : ℚ
  cac_yesterday : ℚ
  sales_change : ℚ
  cost_change : ℚ
deriving DecidableEq, Repr

/-- Mirrors the `Recommendations` TypedDict produced by
`recommendation_node`. -/
structure Recommendations where
  profit_status : String
  alerts : List String
  recommendations : List String
deriving DecidableEq, Repr

/-- The raw contents of the `data` dict before validation: either sub-dict may
be missing or `None`. -/
structure RawDaily where
  today : Option BusinessData
  yesterday : Option BusinessData
deriving DecidableEq, Repr

/-- The raw state handed to `input_node`: the `data` key itself may be missing
or `None`. -/
structure RawState where
  data : Option RawDaily
deriving DecidableEq, Repr

/-- Python division `a / b`: raises `ZeroDivisionError` when `b = 0`, else
returns the exact quotient. -/
def pydiv (a b : ℚ) : Except PyError ℚ :=
  if b = 0 then Except.error PyError.zeroDivisionError else Except.ok (a / b)

/-- The `ValueError` message raised by `input_node` (source line 57). -/
def invalidMsg : String :=
  "Invalid input data: \x27data\x27 with \x27today\x27 and \x27yesterday\x27 required"

/-- Embeds `input_node` (source lines 44-58): raise `ValueError` when `data`,
`data.today` or `data.yesterday` is missing or null, else return the state
unchanged. -/
def input_node (s : RawState) : Except PyError RawState :=
  if s.data.isNone || (s.data.bind RawDaily.today).isNone
      || (s.data.bind RawDaily.yesterday).isNone then
    Except.error (PyError.valueError invalidMsg)
  else
    Except.ok s

/-- Embeds `processing_node` (source lines 60-92): profits, guarded CAC for
each day, and guarded percentage changes. -/
def processing_node (d : DailyData) : Except PyError Metrics := do
  let today := d.today
  let yesterday := d.yesterday
  let profit_today := today.sales - today.costs
  let profit_yesterday := yesterday.sales - yesterday.costs
  let cac_today ←
    if 0 < today.customers then pydiv today.costs (today.customers : ℚ)
    else pure 0
  let cac_yesterday ←
    if 0 < yesterday.customers then pydiv yesterday.costs (yesterday.customers : ℚ)
    else pure 0
  let sales_change ←
    if 0 < yesterday.sales then
      Except.map (fun r => r * 100) (pydiv (today.sales - yesterday.sales) yesterday.sales)
    else pure 0
  let cost_change ←
    if 0 < yesterday.costs then
      Except.map (fun r => r * 100) (pydiv (today.costs - yesterday.costs) yesterday.costs)
    else pure 0
  pure { profit_today := profit_today, profit_yesterday := profit_yesterday,
         cac_today := cac_today, cac_yesterday := cac_yesterday,
         sales_change := sales_change, cost_change := cost_change }

/-- Round half to even, the tie-breaking rule of Python float formatting. -/
def roundHalfEven (q : ℚ) : ℤ :=
  let f := ⌊q⌋
  let r := q - f
  if r < 1 / 2 then f
  else if 1 / 2 < r then f + 1
  else if f % 2 = 0 then f else f + 1

/-- Models the Python format spec `:.2f`: round to hundredths and print with
exactly two digits after the decimal point. -/
def fmt2 (q : ℚ) : String :=
  let n := roundHalfEven (q * 100)
  let sgn := if q < 0 then "-" else ""
  let a := n.natAbs
  sgn ++ toString (a / 100) ++ "." ++ (if a % 100 < 10 then "0" else "") ++ toString (a % 100)

/-- The recommendation appended in the loss branch (source line 117). -/
def lossRec : String := "Reduce costs to improve profitability"

/-- The recommendation appended on a CAC spike (source line 124). -/
def reviewRec : String := "Review marketing campaigns for efficiency"

/-- The CAC change percentage computed at source line 121 (only evaluated when
`cac_yesterday > 0`). -/
def cac_change (m : Metrics) : ℚ :=
  (m.cac_today - m.cac_yesterday) / m.cac_yesterday * 100

/-- The alert string appended on a CAC spike (source line 123). -/
def cacAlert (m : Metrics) : String :=
  "CAC increased by " ++ fmt2 (cac_change m) ++ "%, which is significant."

/-- The recommendation appended on sales growth (source line 128). -/
def growthRec (m : Metrics) : String :=
  "Consider increasing advertising budget due to " ++ fmt2 m.sales_change ++ "% sales growth"

/-- Embeds the CAC spike block of `recommendation_node` (source lines
119-124): only when `cac_yesterday > 0` is the change computed, and only a
strictly greater than 20 percent change appends the alert and the
recommendation. -/
def cacStep (m : Metrics) (alerts recommendations : List String) :
    Except PyError (List String × List String) :=
  if 0 < m.cac_yesterday then do
    let q ← pydiv (m.cac_today - m.cac_yesterday) m.cac_yesterday
    let cc := q * 100
    if 20 < cc then
      pure (alerts ++ ["CAC increased by " ++ fmt2 cc ++ "%, which is significant."],
            recommendations ++ [reviewRec])
    else
      pure (alerts, recommendations)
  else
    pure (alerts, recommendations)

/-- Embeds `recommendation_node` (source lines 94-135): the profit/loss status,
the CAC spike rule (with its division) and the growth rule, in source order. -/
def recommendation_node (m : Metrics) : Except PyError Recommendations := do
  let alerts : List String := []
  let recommendations : List String := []
  let (profit_status, recommendations) :=
    if 0 ≤ m.profit_today then
      ("Profit: $" ++ fmt2 m.profit_today, recommendations)
    else
      ("Loss: $" ++ fmt2 (-m.profit_today), recommendations ++ [lossRec])
  let (alerts, recommendations) ← cacStep m alerts recommendations
  let recommendations :=
    if 0 < m.sales_change then recommendations ++ [growthRec m]
    else recommendations
  pure { profit_status := profit_status, alerts := alerts,
         recommendations := recommendations }

/-- Wraps a validated snapshot back into the raw state shape, with every field
present, as the driver would pass it. -/
def rawOf (d : DailyData) : RawState :=
  { data := some { today := some d.today, yesterday := some d.yesterday } }

/-- Modelled from the spec: the DerivedMetrics record written exactly with the
formulas of spec section 4.2 and claim C1, to be compared with
`processing_node`. -/
def specMetrics (d : DailyData) : Metrics where
  profit_today := d.today.sales - d.today.costs
  profit_yesterday := d.yesterday.sales - d.yesterday.costs
  cac_today := if 0 < d.today.customers then d.today.costs / (d.today.customers : ℚ) else 0
  cac_yesterday :=
    if 0 < d.yesterday.customers then d.yesterday.costs / (d.yesterday.customers : ℚ) else 0
  sales_change :=
    if 0 < d.yesterday.sales then
      (d.today.sales - d.yesterday.sales) / d.yesterday.sales * 100
    else 0
  cost_change :=
    if 0 < d.yesterday.costs then
      (d.today.costs - d.yesterday.costs) / d.yesterday.costs * 100
    else 0

/-- Modelled from the spec: the Outcome of spec section 4.3 as a closed-form
record, to be compared with `recommendation_node`. -/
def specOutcome (m : Metrics) : Recommendations where
  profit_status :=
    if 0 ≤ m.profit_today then "Profit: $" ++ fmt2 m.profit_today
    else "Loss: $" ++ fmt2 (-m.profit_today)
  alerts := if 0 < m.cac_yesterday ∧ 20 < cac_change m then [cacAlert m] else []
  recommendations :=
    (if 0 ≤ m.profit_today then [] else [lossRec])
      ++ (if 0 < m.cac_yesterday ∧ 20 < cac_change m then [reviewRec] else [])
      ++ (if 0 < m.sales_change then [growthRec m] else [])

lemma pydiv_ok (a b : ℚ) (h : b ≠ 0) : pydiv a b = Except.ok (a / b) := by
  simp [pydiv, h]

lemma processing_node_ok (d : DailyData) :
    processing_node d = Except.ok (specMetrics d) := by
  unfold processing_node specMetrics
  rcases d with ⟨⟨ts, tc, tn⟩, ⟨ys, yc, yn⟩⟩
  simp only
  by_cases h1 : 0 < tn <;> by_cases h2 : 0 < yn <;> by_cases h3 : 0 < ys <;>
    by_cases h4 : 0 < yc <;>
    simp [h1, h2, h3, h4, pydiv_ok, Int.cast_ne_zero, ne_of_gt, Except.map,
      bind, Except.bind, pure, Except.pure]

lemma cacStep_ok (m : Metrics) (al re : List String) :
    cacStep m al re
      = Except.ok
        (if 0 < m.cac_yesterday ∧ 20 < cac_change m then (al ++ [cacAlert m], re ++ [reviewRec])
         else (al, re)) := by
  unfold cacStep
  by_cases h2 : 0 < m.cac_yesterday
  · rw [if_pos h2, pydiv_ok _ _ (ne_of_gt h2)]
    have hiff : (0 < m.cac_yesterday ∧ 20 < (m.cac_today - m.cac_yesterday) / m.cac_yesterday * 100)
        ↔ 20 < (m.cac_today - m.cac_yesterday) / m.cac_yesterday * 100 :=
      ⟨And.right, fun h => ⟨h2, h⟩⟩
    simp only [bind, Except.bind, cacAlert, cac_change, hiff]
    split <;> rfl
  · have hnf : ¬ (0 < m.cac_yesterday ∧ 20 < cac_change m) := fun hc => h2 hc.1
    rw [if_neg h2, if_neg hnf]
    rfl

lemma recommendation_node_ok (m : Metrics) :
    recommendation_node m = Except.ok (specOutcome m) := by
  unfold recommendation_node specOutcome
  by_cases h1 : 0 ≤ m.profit_today <;>
    by_cases hf : 0 < m.cac_yesterday ∧ 20 < cac_change m <;>
    by_cases h4 : 0 < m.sales_change <;>
    simp [h1, hf, h4, cacStep_ok, bind, Except.bind, pure, Except.pure]

lemma growthRec_len (m : Metrics) :
    (growthRec m).length = 60 + (fmt2 m.sales_change).length := by
  unfold growthRec
  simp only [String.length_append]
  have h1 : ("Consider increasing advertising budget due to ").length = 46 := rfl
  have h2 : ("% sales growth").length = 14 := rfl
  omega

lemma growthRec_ne_lossRec (m : Metrics) : growthRec m ≠ lossRec := by
  intro h
  have hl := congrArg String.length h
  rw [growthRec_len] at hl
  have h2 : lossRec.length = 37 := rfl
  omega

lemma growthRec_ne_reviewRec (m : Metrics) : growthRec m ≠ reviewRec := by
  intro h
  have hl := congrArg String.length h
  rw [growthRec_len] at hl
  have h2 : reviewRec.length = 41 := rfl
  omega

lemma lossRec_ne_reviewRec : lossRec ≠ reviewRec := by decide

lemma mem_ite_singleton {s a : String} {P : Prop} [Decidable P] :
    s ∈ (if P then [a] else ([] : List String)) ↔ P ∧ s = a := by
  split_ifs with h <;> simp [h]

lemma mem_ite_nil_singleton {s a : String} {P : Prop} [Decidable P] :
    s ∈ (if P then ([] : List String) else [a]) ↔ ¬ P ∧ s = a := by
  split_ifs with h <;> simp [h]

lemma ite_nil_swap {α : Type} (x : ℚ) (l : List α) :
    (if 0 ≤ x then ([] : List α) else l) = if x < 0 then l else [] := by
  rcases le_or_lt 0 x with h | h
  · rw [if_pos h, if_neg (not_lt.mpr h)]
  · rw [if_neg (not_le.mpr h), if_pos h]

lemma ite_single_sublist {α : Type} {P : Prop} [Decidable P] (a : α) :
    List.Sublist (if P then [a] else []) [a] := by
  split_ifs
  · exact List.Sublist.refl _
  · exact List.nil_sublist _

lemma ite_nil_single_sublist {α : Type} (x : ℚ) (a : α) :
    List.Sublist (if 0 ≤ x then [] else [a]) [a] := by
  split_ifs
  · exact List.nil_sublist _
  · exact List.Sublist.refl _

/-- Claim C1: for every validated Snapshot, the Metrics Calculator produces
exactly the spec formulas: profits as plain differences (no floor, may be
negative), CAC as costs over customers when customers > 0 and 0 otherwise collapsed,
and each percentage change guarded by a positive prior-day base, 0 otherwise. -/
theorem C1_metrics_formulas (d : DailyData) :
    processing_node d = Except.ok
      { profit_today := d.today.sales - d.today.costs,
        profit_yesterday := d.yesterday.sales - d.yesterday.costs,
        cac_today := if 0 < d.today.customers then d.today.costs / (d.today.customers : ℚ) else 0,
        cac_yesterday :=
          if 0 < d.yesterday.customers then d.yesterday.costs / (d.yesterday.customers : ℚ) else 0,
        sales_change :=
          if 0 < d.yesterday.sales then
            (d.today.sales - d.yesterday.sales) / d.yesterday.sales * 100
          else 0,
        cost_change :=
          if 0 < d.yesterday.costs then
            (d.today.costs - d.yesterday.costs) / d.yesterday.costs * 100
          else 0 } := by
  rw [processing_node_ok]
  rfl

/-- Claim C2: the status is the Profit string exactly when profit_today is
nonnegative and the Loss string of the negated profit otherwise, and the loss
recommendation is present if and only if profit_today is negative. -/
theorem C2_profit_status (m : Metrics) :
    ∃ r, recommendation_node m = Except.ok r
      ∧ r.profit_status = (if 0 ≤ m.profit_today then "Profit: $" ++ fmt2 m.profit_today
          else "Loss: $" ++ fmt2 (-m.profit_today))
      ∧ (lossRec ∈ r.recommendations ↔ m.profit_today < 0) := by
  refine ⟨specOutcome m, recommendation_node_ok m, rfl, ?_⟩
  simp only [specOutcome, List.mem_append, mem_ite_singleton, mem_ite_nil_singleton, not_le]
  constructor
  · rintro ((⟨h, _⟩ | ⟨_, h⟩) | ⟨_, h⟩)
    · exact h
    · exact absurd h lossRec_ne_reviewRec
    · exact absurd h.symm (growthRec_ne_lossRec m)
  · intro h
    exact Or.inl (Or.inl ⟨h, trivial⟩)

/-- Claim C3: the CAC spike alert together with the review recommendation is
produced if and only if yesterday's CAC is positive and the CAC change exceeds
20 strictly; the alert list is exactly the singleton of the alert string in
that case and empty otherwise (so a change of exactly 20, or a zero
cac_yesterday, never fires). -/
theorem C3_cac_spike (m : Metrics) :
    ∃ r, recommendation_node m = Except.ok r
      ∧ r.alerts = (if 0 < m.cac_yesterday ∧ 20 < cac_change m then [cacAlert m] else [])
      ∧ ((cacAlert m ∈ r.alerts ∧ reviewRec ∈ r.recommendations)
          ↔ (0 < m.cac_yesterday ∧ 20 < cac_change m)) := by
  refine ⟨specOutcome m, recommendation_node_ok m, rfl, ?_⟩
  simp only [specOutcome, List.mem_append, mem_ite_singleton, mem_ite_nil_singleton, not_le]
  constructor
  · rintro ⟨⟨hf, _⟩, _⟩
    exact hf
  · intro hf
    exact ⟨⟨hf, trivial⟩, Or.inl (Or.inr ⟨hf, trivial⟩)⟩

/-- Claim C4: the growth recommendation is present if and only if sales_change
is strictly positive; sales_change equal to zero does not trigger it. -/
theorem C4_growth (m : Metrics) :
    ∃ r, recommendation_node m = Except.ok r
      ∧ (growthRec m ∈ r.recommendations ↔ 0 < m.sales_change) := by
  refine ⟨specOutcome m, recommendation_node_ok m, ?_⟩
  simp only [specOutcome, List.mem_append, mem_ite_singleton, mem_ite_nil_singleton, not_le]
  constructor
  · rintro ((⟨_, h⟩ | ⟨_, h⟩) | ⟨h4, _⟩)
    · exact absurd h (growthRec_ne_lossRec m)
    · exact absurd h (growthRec_ne_reviewRec m)
    · exact h4
  · intro h4
    exact Or.inr ⟨h4, trivial⟩

/-- Claim C5: the Validator raises the distinct `valueError` failure exactly
when `data`, `data.today` or `data.yesterday` is missing or null, and otherwise
returns the input unchanged; in particular a fully populated input never
raises. -/
theorem C5_validator (s : RawState) :
    (input_node s = Except.error (PyError.valueError invalidMsg)
        ↔ (s.data = none ∨ s.data.bind RawDaily.today = none
            ∨ s.data.bind RawDaily.yesterday = none))
      ∧ (input_node s = Except.ok s
          ∨ input_node s = Except.error (PyError.valueError invalidMsg)) := by
  have hb : (s.data.isNone || (s.data.bind RawDaily.today).isNone
      || (s.data.bind RawDaily.yesterday).isNone) = true
      ↔ (s.data = none ∨ s.data.bind RawDaily.today = none
          ∨ s.data.bind RawDaily.yesterday = none) := by
    rcases s with ⟨_ | ⟨t, y⟩⟩
    · simp
    · rcases t with _ | t <;> rcases y with _ | y <;> simp
  unfold input_node
  split_ifs with h
  · rw [hb] at h
    exact ⟨⟨fun _ => h, fun _ => rfl⟩, Or.inr rfl⟩
  · rw [hb] at h
    refine ⟨⟨fun hc => ?_, fun hd => absurd hd h⟩, Or.inl rfl⟩
    simp at hc

/-- Claim C6: the recommendations appear in the fixed rule order, loss first,
then CAC review, then growth; equivalently the recommendation list is always a
sublist of the ordered three-element list, and the alerts a sublist of the
singleton alert. -/
theorem C6_rule_order (m : Metrics) :
    ∃ r, recommendation_node m = Except.ok r
      ∧ r.recommendations = (if m.profit_today < 0 then [lossRec] else [])
          ++ (if 0 < m.cac_yesterday ∧ 20 < cac_change m then [reviewRec] else [])
          ++ (if 0 < m.sales_change then [growthRec m] else [])
      ∧ List.Sublist r.recommendations [lossRec, reviewRec, growthRec m]
      ∧ List.Sublist r.alerts [cacAlert m] := by
  refine ⟨specOutcome m, recommendation_node_ok m, ?_, ?_, ?_⟩
  · simp only [specOutcome]
    rw [ite_nil_swap]
  · simp only [specOutcome]
    exact List.Sublist.append
      (List.Sublist.append (ite_nil_single_sublist _ _) (ite_single_sublist _))
      (ite_single_sublist _)
  · simp only [specOutcome]
    exact ite_single_sublist _

/-- Claim C7: both computation stages are total: `processing_node` and
`recommendation_node` never raise, because every division they reach has a
nonzero (indeed strictly positive) denominator, the zero-denominator cases
having been replaced by the value 0 by the guards. -/
theorem C7_totality :
    (∀ d : DailyData, ∃ m, processing_node d = Except.ok m)
      ∧ (∀ m : Metrics, ∃ r, recommendation_node m = Except.ok r) :=
  ⟨fun d => ⟨specMetrics d, processing_node_ok d⟩,
   fun m => ⟨specOutcome m, recommendation_node_ok m⟩⟩

/-- Claim C8 is false on the code: there is no snapshot with a negative
customers count whose CAC comes out negative or undefined, because the
`customers > 0` guard maps every non-positive count to CAC = 0. -/
theorem C8_counterexample :
    (∃ d : DailyData,
        (d.today.customers < 0
          ∧ ((∃ e, processing_node d = Except.error e)
              ∨ ∃ m, processing_node d = Except.ok m ∧ m.cac_today < 0))
        ∨ (d.yesterday.customers < 0
          ∧ ((∃ e, processing_node d = Except.error e)
              ∨ ∃ m, processing_node d = Except.ok m ∧ m.cac_yesterday < 0)))
      ↔ False := by
  refine ⟨?_, False.elim⟩
  rintro ⟨d, ⟨hneg, ⟨e, he⟩ | ⟨m, hok, hlt⟩⟩ | ⟨hneg, ⟨e, he⟩ | ⟨m, hok, hlt⟩⟩⟩
  · rw [processing_node_ok] at he
    exact Except.noConfusion he
  · rw [processing_node_ok] at hok
    rw [← Except.ok.inj hok] at hlt
    have hz : (specMetrics d).cac_today = 0 := by
      simp only [specMetrics]
      rw [if_neg (by omega)]
    rw [hz] at hlt
    exact absurd hlt (lt_irrefl 0)
  · rw [processing_node_ok] at he
    exact Except.noConfusion he
  · rw [processing_node_ok] at hok
    rw [← Except.ok.inj hok] at hlt
    have hz : (specMetrics d).cac_yesterday = 0 := by
      simp only [specMetrics]
      rw [if_neg (by omega)]
    rw [hz] at hlt
    exact absurd hlt (lt_irrefl 0)

/-- Claim C8, amended: a snapshot with a negative customers count is processed
silently, without validation rejection and without failure, and that day's CAC
is 0 (the `customers > 0` guard treats negative counts like zero counts). -/
theorem C8_amended (d : DailyData) :
    input_node (rawOf d) = Except.ok (rawOf d)
      ∧ (d.today.customers < 0 →
          ∃ m, processing_node d = Except.ok m ∧ m.cac_today = 0)
      ∧ (d.yesterday.customers < 0 →
          ∃ m, processing_node d = Except.ok m ∧ m.cac_yesterday = 0) := by
  refine ⟨rfl, ?_, ?_⟩
  · intro h
    refine ⟨specMetrics d, processing_node_ok d, ?_⟩
    simp only [specMetrics]
    rw [if_neg (by omega)]
  · intro h
    refine ⟨specMetrics d, processing_node_ok d, ?_⟩
    simp only [specMetrics]
    rw [if_neg (by omega)]

/-- Witness for the amended claim C8 at a concrete snapshot with negative
customers on both days. -/
theorem C8_amended_witness :
    input_node (rawOf ⟨⟨100, 200, -5⟩, ⟨90, 40, -3⟩⟩)
        = Except.ok (rawOf ⟨⟨100, 200, -5⟩, ⟨90, 40, -3⟩⟩)
      ∧ (∃ m, processing_node ⟨⟨100, 200, -5⟩, ⟨90, 40, -3⟩⟩ = Except.ok m ∧ m.cac_today = 0)
      ∧ (∃ m, processing_node ⟨⟨100, 200, -5⟩, ⟨90, 40, -3⟩⟩ = Except.ok m
          ∧ m.cac_yesterday = 0) := by
  have h := C8_amended ⟨⟨100, 200, -5⟩, ⟨90, 40, -3⟩⟩
  exact ⟨h.1, h.2.1 (by decide), h.2.2 (by decide)⟩

/-- Claim C9: the Outcome's alert list has at most one element, and when it is
non-empty the single element is the CAC spike alert and the review
recommendation is also present. -/
theorem C9_alerts_invariant (m : Metrics) :
    ∃ r, recommendation_node m = Except.ok r
      ∧ r.alerts.length ≤ 1
      ∧ (r.alerts = [] ∨ (r.alerts = [cacAlert m] ∧ reviewRec ∈ r.recommendations)) := by
  refine ⟨specOutcome m, recommendation_node_ok m, ?_, ?_⟩
  · simp only [specOutcome]
    split_ifs <;> simp
  · by_cases hf : 0 < m.cac_yesterday ∧ 20 < cac_change m
    · refine Or.inr ⟨by simp only [specOutcome]; rw [if_pos hf], ?_⟩
      simp only [specOutcome, List.mem_append, mem_ite_singleton, mem_ite_nil_singleton]
      exact Or.inl (Or.inr ⟨hf, trivial⟩)
    · exact Or.inl (by simp only [specOutcome]; rw [if_neg hf])

/-- Claim C10: when yesterday's sales are 0, sales_change is 0, so the growth
recommendation is never produced no matter how large today's sales are, and
the recommendation list consists only of the loss and review entries. -/
theorem C10_zero_base_no_growth (d : DailyData) (h : d.yesterday.sales = 0) :
    ∃ m r, processing_node d = Except.ok m ∧ m.sales_change = 0
      ∧ recommendation_node m = Except.ok r
      ∧ growthRec m ∉ r.recommendations
      ∧ r.recommendations = (if m.profit_today < 0 then [lossRec] else [])
          ++ (if 0 < m.cac_yesterday ∧ 20 < cac_change m then [reviewRec] else []) := by
  have hsc : (specMetrics d).sales_change = 0 := by
    simp only [specMetrics]
    rw [if_neg (by rw [h]; exact lt_irrefl 0)]
  refine ⟨specMetrics d, specOutcome (specMetrics d), processing_node_ok d, hsc,
    recommendation_node_ok _, ?_, ?_⟩
  · intro hmem
    simp only [specOutcome, hsc, List.mem_append, mem_ite_singleton,
      mem_ite_nil_singleton, not_le] at hmem
    rcases hmem with (⟨_, hg⟩ | ⟨_, hg⟩) | ⟨hz, _⟩
    · exact (growthRec_ne_lossRec _) hg
    · exact (growthRec_ne_reviewRec _) hg
    · exact absurd hz (lt_irrefl 0)
  · simp only [specOutcome, hsc]
    rw [ite_nil_swap, if_neg (lt_irrefl (0 : ℚ)), List.append_nil]

/-- Witness for claim C10 at a concrete snapshot with zero sales yesterday and
large sales today. -/
theorem C10_witness :
    ∃ m r, processing_node ⟨⟨1000, 800, 50⟩, ⟨0, 750, 45⟩⟩ = Except.ok m
      ∧ m.sales_change = 0
      ∧ recommendation_node m = Except.ok r
      ∧ growthRec m ∉ r.recommendations
      ∧ r.recommendations = (if m.profit_today < 0 then [lossRec] else [])
          ++ (if 0 < m.cac_yesterday ∧ 20 < cac_change m then [reviewRec] else []) :=
  C10_zero_base_no_growth ⟨⟨1000, 800, 50⟩, ⟨0, 750, 45⟩⟩ rfl
